import Mathlib

/-!
Shallow embedding of the Pomodorio backend (`src/src-tauri/src/main.rs`).

The Rust program is a Tauri desktop app; the logic verified here is the
phase/session state machine, the stats tracker and the startup stat-reset
check.  Rust `i32` values are modelled as `Int` (no claim exercises the
2^31 overflow boundary); the Rust remainder operator `%` on `i32` is
truncated remainder, modelled by `Int.tmod`.  The chrono `DateTime<Utc>`
values are only ever inspected through `year()`, `ordinal()` and
`iso_week().week()`, so a date is modelled as that triple of projections.
Store writes (`store.insert`) and front-end emissions (`emit_all`,
system notifications) are recorded in an `Action` trace in program order.
-/

namespace Pomodorio

/-- `enum TimePhase` from main.rs; `Default` is `Work`. -/
inductive TimePhase where
  | Work
  | ShortBreak
  | LongBreak
deriving DecidableEq, Repr

/-- `struct Stat { minutes: i32, sessions: i32 }`. -/
structure Stat where
  minutes : Int
  sessions : Int
deriving DecidableEq, Repr

/-- `Stat::default()`: both fields zero (derived `Default`). -/
def Stat.default : Stat := ⟨0, 0⟩

/-- `struct Stats` with the three buckets `today`, `week`, `total`. -/
structure Stats where
  today : Stat
  week : Stat
  total : Stat
deriving DecidableEq, Repr

/-- `Stats::default()`: all three buckets zeroed. -/
def Stats.default : Stats := ⟨Stat.default, Stat.default, Stat.default⟩

/-- `struct Settings` from main.rs. -/
structure Settings where
  work_time : Int
  short_break_time : Int
  long_break_time : Int
  long_break_interval : Int
deriving DecidableEq, Repr

/-- `Settings::default()`: 25 / 5 / 20 / 4. -/
def Settings.default : Settings := ⟨25, 5, 20, 4⟩

/-- A chrono `DateTime<Utc>` as the three projections the program reads:
`year()`, `ordinal()` (day of year) and `iso_week().week()`. -/
structure UtcDate where
  year : Int
  ordinal : Nat
  isoWeek : Nat
deriving DecidableEq, Repr

/-- The persisted key-value store: keys `settings`, `stats`, `last_opened`. -/
structure StoreState where
  settings : Settings
  stats : Stats
  last_opened : UtcDate
deriving DecidableEq, Repr

/-- One observable side effect: a `store.insert` of one of the three keys,
an `emit_all` of one of the three events, or a system notification. -/
inductive Action where
  | writeStats (s : Stats)
  | writeSettings (s : Settings)
  | writeLastOpened (d : UtcDate)
  | emitSessionNumber (n : Int)
  | emitSwitchPhase (p : TimePhase)
  | notify (body : String)
  | emitRemaining (n : Int)
deriving DecidableEq, Repr

/-- True exactly on `session-number` emissions. -/
def Action.isSessionEvent : Action → Bool
  | .emitSessionNumber _ => true
  | _ => false

/-- True exactly on `switch-phase` emissions. -/
def Action.isPhaseEvent : Action → Bool
  | .emitSwitchPhase _ => true
  | _ => false

/-- True exactly on `remaining` emissions. -/
def Action.isRemainingEvent : Action → Bool
  | .emitRemaining _ => true
  | _ => false

/-- `get_remaining`: the configured duration of the given phase. -/
def get_remaining (settings : Settings) (phase : TimePhase) : Int :=
  match phase with
  | .Work => settings.work_time
  | .ShortBreak => settings.short_break_time
  | .LongBreak => settings.long_break_time

/-- `get_new_phase`: the phase determined by the session counter.  The Rust
source tests `session_number % 2 == 1` and
`session_number % (long_break_interval * 2 - 1) == 0` with the `i32`
truncated remainder, i.e. `Int.tmod`. -/
def get_new_phase (settings : Settings) (session_number : Int) : TimePhase :=
  if Int.tmod session_number 2 = 1 then
    if Int.tmod session_number (settings.long_break_interval * 2 - 1) = 0 then
      TimePhase.LongBreak
    else
      TimePhase.ShortBreak
  else
    TimePhase.Work

/-- The pure arithmetic of `update_session_number`: increment when moving
forward, decrement when moving to the previous phase. -/
def update_session_number (previous_value : Int) (is_previous : Bool) : Int :=
  if !is_previous then previous_value + 1 else previous_value - 1

/-- The loop body of `update_stats`: for each of the keys `today`, `week`,
`total`, add the elapsed time to `minutes` and 1 to `sessions`. -/
def record_elapsed (stats : Stats) (elapsed_time : Int) : Stats :=
  { today := ⟨stats.today.minutes + elapsed_time, stats.today.sessions + 1⟩
    week := ⟨stats.week.minutes + elapsed_time, stats.week.sessions + 1⟩
    total := ⟨stats.total.minutes + elapsed_time, stats.total.sessions + 1⟩ }

/-- `update_stats`: reads the elapsed time as `get_remaining` of the current
phase, bumps all three buckets, and performs a single `store.insert` of the
`stats` key. -/
def update_stats (store : StoreState) (phase : TimePhase) :
    StoreState × List Action :=
  let elapsed_time := get_remaining store.settings phase
  let new_stats := record_elapsed store.stats elapsed_time
  ({ store with stats := new_stats }, [Action.writeStats new_stats])

/-- The body text chosen by `emit_status_notification` for each phase. -/
def notification_body (phase : TimePhase) : String :=
  match phase with
  | .Work => "Time to get back to work!"
  | .ShortBreak => "Have a little rest!"
  | .LongBreak => "Take some extra time to relax!"

/-- The in-memory state: the `Phase` and `SessionNumber` managed values plus
the persisted store. -/
structure AppState where
  phase : TimePhase
  session_number : Int
  store : StoreState
deriving DecidableEq, Repr

/-- `switch_phase(is_previous, is_user)`: when the current phase is `Work`
and the transition is automatic and forward, first run `update_stats`; then
`update_session_number` (which emits `session-number`), then `get_new_phase`
and `set_phase` (which emits `switch-phase`), then the system notification,
then the `remaining` emission.  The returned trace lists these effects in
program order. -/
def switch_phase (is_previous : Bool) (is_user : Bool) (st : AppState) :
    AppState × List Action :=
  let phase := st.phase
  let statsStep :=
    if phase = TimePhase.Work ∧ (is_user || is_previous) = false then
      update_stats st.store phase
    else
      (st.store, [])
  let store := statsStep.1
  let new_session := update_session_number st.session_number is_previous
  let new_phase := get_new_phase store.settings new_session
  let remaining := get_remaining store.settings new_phase
  ({ phase := new_phase, session_number := new_session, store := store },
   statsStep.2 ++
     [Action.emitSessionNumber new_session,
      Action.emitSwitchPhase new_phase,
      Action.notify (notification_body new_phase),
      Action.emitRemaining remaining])

/-- `check_stat_reset`: compares `today` (now) against `last_opened`; a year
or day-of-year difference zeroes the `today` bucket and returns early; else a
year or ISO-week difference zeroes the `week` bucket; else nothing is
written.  Returns the updated store, the trace of writes, and the `Ok` value. -/
def check_stat_reset (store : StoreState) (today : UtcDate) :
    StoreState × List Action × Bool :=
  if today.year ≠ store.last_opened.year ∨
      today.ordinal ≠ store.last_opened.ordinal then
    ({ store with stats := { store.stats with today := Stat.default } },
     [Action.writeStats { store.stats with today := Stat.default }], true)
  else if today.year ≠ store.last_opened.year ∨
      today.isoWeek ≠ store.last_opened.isoWeek then
    ({ store with stats := { store.stats with week := Stat.default } },
     [Action.writeStats { store.stats with week := Stat.default }], true)
  else
    (store, [], false)

/-- The store produced by `StoreBuilder` defaults on first run: default
settings, zero stats, and `last_opened` seeded with `Utc::now()`. -/
def default_store (now : UtcDate) : StoreState :=
  { settings := Settings.default, stats := Stats.default, last_opened := now }

/-- The `setup` closure of `main`: build the store (defaults are applied only
when the file has no value for a key, so an existing store is kept as is) and
run `check_stat_reset`.  No other write happens during initialization. -/
def startup (existing : Option StoreState) (now : UtcDate) :
    StoreState × List Action × Bool :=
  let store :=
    match existing with
    | some s => s
    | none => default_store now
  check_stat_reset store now

/-- Process start state: `Phase(Mutex::new(TimePhase::default()))` and
`SessionNumber(Mutex::new(0))`. -/
def initial_state (store : StoreState) : AppState :=
  { phase := TimePhase.Work, session_number := 0, store := store }

/-- The states reached by `n` successive automatic forward transitions. -/
def forward_states (st : AppState) : Nat → List AppState
  | 0 => []
  | n + 1 =>
    let st1 := (switch_phase false false st).1
    st1 :: forward_states st1 n

/-- A concrete date used by the sample runs. -/
def sample_date : UtcDate := ⟨2024, 100, 15⟩

/-- A concrete store used by the sample runs: first-run defaults. -/
def sample_store : StoreState := default_store sample_date

/-- A concrete store with non-zero stats, opened on day 10 of 2024 (ISO week 2). -/
def busy_store : StoreState :=
  { settings := Settings.default
    stats := ⟨⟨30, 2⟩, ⟨100, 7⟩, ⟨500, 40⟩⟩
    last_opened := ⟨2024, 10, 2⟩ }

/-- A later date in the same year: day 11, ISO week 3 (both day and week differ
from `busy_store.last_opened`). -/
def later_date : UtcDate := ⟨2024, 11, 3⟩

/-- Truncated remainder negates with its dividend (the `i32` `%` semantics). -/
theorem tmod_neg_left (a b : Int) : Int.tmod (-a) b = -Int.tmod a b := by
  rw [Int.tmod_def, Int.tmod_def, Int.neg_tdiv]
  ring

/-- C1 (counterexample): at the session counter -7 with the default
`long_break_interval` of 4, the counter is odd and `-7 mod 7 = 0` (under both
the mathematical and the truncated remainder), so the claim as stated demands
`LongBreak`; `get_new_phase` returns `Work`, because the Rust parity test
`session_number % 2 == 1` sees `-7 % 2 == -1`. -/
theorem c1_phase_formula_counterexample :
    Odd (-7 : Int) ∧
      Int.tmod (-7 : Int) (2 * Settings.default.long_break_interval - 1) = 0 ∧
      (-7 : Int) % (2 * Settings.default.long_break_interval - 1) = 0 ∧
      get_new_phase Settings.default (-7) = TimePhase.Work ∧
      get_new_phase Settings.default (-7) ≠ TimePhase.LongBreak :=
  ⟨⟨-4, by norm_num⟩, by decide, by decide, by decide, by decide⟩

/-- C1 (amended): for every non-negative session counter `n` and positive
configured `long_break_interval` `i`, the computed phase is a pure function of
`n` and `i`: `n` even gives `Work`; `n` odd with `n mod (2 i - 1) = 0` gives
`LongBreak`; `n` odd otherwise gives `ShortBreak`. -/
theorem c1_phase_formula_nonneg (s : Settings) (n : Int) (h0 : 0 ≤ n)
    (hi : 0 < s.long_break_interval) :
    (n % 2 = 0 → get_new_phase s n = TimePhase.Work) ∧
    (n % 2 = 1 → n % (2 * s.long_break_interval - 1) = 0 →
      get_new_phase s n = TimePhase.LongBreak) ∧
    (n % 2 = 1 → n % (2 * s.long_break_interval - 1) ≠ 0 →
      get_new_phase s n = TimePhase.ShortBreak) := by
  have h2 : Int.tmod n 2 = n % 2 := Int.tmod_eq_emod h0 (by norm_num)
  have hmm : (0 : Int) ≤ s.long_break_interval * 2 - 1 := by omega
  have hm : Int.tmod n (s.long_break_interval * 2 - 1) =
      n % (s.long_break_interval * 2 - 1) := Int.tmod_eq_emod h0 hmm
  have hcomm : s.long_break_interval * 2 - 1 = 2 * s.long_break_interval - 1 := by
    ring
  unfold get_new_phase
  rw [h2, hm, hcomm]
  refine ⟨fun ha => ?_, fun ha hb => ?_, fun ha hb => ?_⟩
  · rw [if_neg (by omega)]
  · rw [if_pos ha, if_pos hb]
  · rw [if_pos ha, if_neg hb]

/-- Witness for the amended C1 at `n = 7`, `i = 4`. -/
theorem c1_phase_formula_nonneg_witness :
    (0 : Int) ≤ 7 ∧ 0 < Settings.default.long_break_interval ∧
      (((7 : Int) % 2 = 0 → get_new_phase Settings.default 7 = TimePhase.Work) ∧
       ((7 : Int) % 2 = 1 →
         (7 : Int) % (2 * Settings.default.long_break_interval - 1) = 0 →
         get_new_phase Settings.default 7 = TimePhase.LongBreak) ∧
       ((7 : Int) % 2 = 1 →
         (7 : Int) % (2 * Settings.default.long_break_interval - 1) ≠ 0 →
         get_new_phase Settings.default 7 = TimePhase.ShortBreak)) :=
  ⟨by decide, by decide,
    c1_phase_formula_nonneg Settings.default 7 (by decide) (by decide)⟩

/-- C2: in every `switch_phase(is_previous, is_user)` run, a completed work
session is recorded into the stats exactly when the current phase is `Work`
and both flags are false; and in that case the whole effect trace is the
stats write first — computed from the pre-transition phase's configured
duration — followed by the session-number emission, the phase emission, the
notification and the remaining emission, so the stats update completes before
the counter advances and the new phase is computed. -/
theorem c2_stats_update_iff_auto_forward_work (is_previous is_user : Bool)
    (st : AppState) :
    ((∃ s, Action.writeStats s ∈ (switch_phase is_previous is_user st).2) ↔
      st.phase = TimePhase.Work ∧ is_previous = false ∧ is_user = false) ∧
    (st.phase = TimePhase.Work → is_previous = false → is_user = false →
      (switch_phase is_previous is_user st).2 =
        [Action.writeStats
           (record_elapsed st.store.stats
             (get_remaining st.store.settings st.phase)),
         Action.emitSessionNumber (st.session_number + 1),
         Action.emitSwitchPhase
           (get_new_phase st.store.settings (st.session_number + 1)),
         Action.notify
           (notification_body
             (get_new_phase st.store.settings (st.session_number + 1))),
         Action.emitRemaining
           (get_remaining st.store.settings
             (get_new_phase st.store.settings (st.session_number + 1)))]) := by
  cases is_previous <;> cases is_user <;>
    by_cases hw : st.phase = TimePhase.Work <;>
      simp [switch_phase, update_stats, update_session_number, hw]

/-- Witness for C2: the automatic forward transition out of `Work` at the
sample initial state records the stats first and then emits in order. -/
theorem c2_stats_update_iff_auto_forward_work_witness :
    (switch_phase false false (initial_state sample_store)).2 =
      [Action.writeStats
         (record_elapsed sample_store.stats
           (get_remaining sample_store.settings TimePhase.Work)),
       Action.emitSessionNumber 1,
       Action.emitSwitchPhase (get_new_phase sample_store.settings 1),
       Action.notify (notification_body (get_new_phase sample_store.settings 1)),
       Action.emitRemaining
         (get_remaining sample_store.settings
           (get_new_phase sample_store.settings 1))] :=
  (c2_stats_update_iff_auto_forward_work false false
    (initial_state sample_store)).2 rfl rfl rfl

/-- C3: the record operation adds exactly the elapsed duration to `minutes`
and exactly 1 to `sessions` in all three buckets; `update_stats` performs it
as one single `stats` write; and `check_stat_reset` never changes the `total`
bucket. -/
theorem c3_record_all_buckets_single_write :
    (∀ (stats : Stats) (d : Int),
      record_elapsed stats d =
        ⟨⟨stats.today.minutes + d, stats.today.sessions + 1⟩,
         ⟨stats.week.minutes + d, stats.week.sessions + 1⟩,
         ⟨stats.total.minutes + d, stats.total.sessions + 1⟩⟩) ∧
    (∀ (store : StoreState) (phase : TimePhase),
      update_stats store phase =
        ({ store with stats :=
            record_elapsed store.stats (get_remaining store.settings phase) },
         [Action.writeStats
            (record_elapsed store.stats (get_remaining store.settings phase))])) ∧
    (∀ (store : StoreState) (today : UtcDate),
      (check_stat_reset store today).1.stats.total = store.stats.total) := by
  refine ⟨fun stats d => rfl, fun store phase => rfl, fun store today => ?_⟩
  unfold check_stat_reset
  split
  · rfl
  · split <;> rfl

/-- C4: whenever `now` and `last_opened` differ in year or in day-of-year,
`check_stat_reset` zeroes exactly the `today` bucket, leaves `week` and
`total` unchanged, performs the single corresponding write and returns true —
the early return means the week branch never also fires, even when the ISO
week differs too. -/
theorem c4_day_reset_only_today (store : StoreState) (today : UtcDate)
    (h : today.year ≠ store.last_opened.year ∨
      today.ordinal ≠ store.last_opened.ordinal) :
    check_stat_reset store today =
      ({ store with stats := { store.stats with today := Stat.default } },
       [Action.writeStats { store.stats with today := Stat.default }], true) ∧
    (check_stat_reset store today).1.stats.today = Stat.default ∧
    (check_stat_reset store today).1.stats.week = store.stats.week ∧
    (check_stat_reset store today).1.stats.total = store.stats.total := by
  unfold check_stat_reset
  rw [if_pos h]
  exact ⟨rfl, rfl, rfl, rfl⟩

/-- Witness for C4 at a store whose last-opened day AND ISO week both differ
from `now`: only the today bucket is reset. -/
theorem c4_day_reset_only_today_witness :
    (later_date.year ≠ busy_store.last_opened.year ∨
      later_date.ordinal ≠ busy_store.last_opened.ordinal) ∧
    (check_stat_reset busy_store later_date =
      ({ busy_store with
          stats := { busy_store.stats with today := Stat.default } },
       [Action.writeStats
          { busy_store.stats with today := Stat.default }], true) ∧
     (check_stat_reset busy_store later_date).1.stats.today = Stat.default ∧
     (check_stat_reset busy_store later_date).1.stats.week =
       busy_store.stats.week ∧
     (check_stat_reset busy_store later_date).1.stats.total =
       busy_store.stats.total) :=
  ⟨by decide, c4_day_reset_only_today busy_store later_date (by decide)⟩

/-- C5 (code behaviour, contradicting the claim): initialization never writes
`last_opened`.  `check_stat_reset` only ever writes the `stats` key, and the
setup closure only seeds store defaults, so on a start with an existing store
the persisted `last_opened` keeps its old value instead of being set to now. -/
theorem c5_last_opened_never_written :
    ∀ (store : StoreState) (now : UtcDate),
      (startup (some store) now).1.last_opened = store.last_opened ∧
      (∀ d, Action.writeLastOpened d ∉ (startup (some store) now).2.1) ∧
      (startup none now).1.last_opened = now := by
  have key : ∀ (s : StoreState) (today : UtcDate),
      (check_stat_reset s today).1.last_opened = s.last_opened ∧
      ∀ d, Action.writeLastOpened d ∉ (check_stat_reset s today).2.1 := by
    intro s today
    unfold check_stat_reset
    split
    · exact ⟨rfl, by simp⟩
    split
    · exact ⟨rfl, by simp⟩
    · exact ⟨rfl, by simp⟩
  intro store now
  exact ⟨(key store now).1, (key store now).2, (key (default_store now) now).1⟩

/-- C6 (counterexample): in a concrete `switch_phase` run the `switch-phase`
event does not precede the `session-number` event — the code emits the
session number first, inside `update_session_number`, before `set_phase`. -/
theorem c6_phase_first_counterexample :
    ¬ ((switch_phase false true (initial_state sample_store)).2.findIdx
        Action.isPhaseEvent <
      (switch_phase false true (initial_state sample_store)).2.findIdx
        Action.isSessionEvent) := by decide

/-- C6 (amended): in every `switch_phase` invocation the session-number
event, the phase event and the remaining event are emitted in that relative
order (session number first, then phase, then remaining). -/
theorem c6_session_then_phase_then_remaining (is_previous is_user : Bool)
    (st : AppState) :
    ((switch_phase is_previous is_user st).2.findIdx Action.isSessionEvent <
      (switch_phase is_previous is_user st).2.findIdx Action.isPhaseEvent) ∧
    ((switch_phase is_previous is_user st).2.findIdx Action.isPhaseEvent <
      (switch_phase is_previous is_user st).2.findIdx Action.isRemainingEvent) := by
  cases is_previous <;> cases is_user <;>
    by_cases hw : st.phase = TimePhase.Work <;>
      simp [switch_phase, update_stats, hw, List.findIdx_cons,
        Action.isSessionEvent, Action.isPhaseEvent, Action.isRemainingEvent]

/-- C7: from any consistent state (the held phase is the one determined by
the counter, which is true of the initial state and of every state the
machine produces), a forward `switch_phase` followed by a backward one
restores both the prior phase and the prior counter. -/
theorem c7_forward_then_back_roundtrip (st : AppState) (u1 u2 : Bool)
    (h : st.phase = get_new_phase st.store.settings st.session_number) :
    ((switch_phase true u2 (switch_phase false u1 st).1).1).phase = st.phase ∧
    ((switch_phase true u2 (switch_phase false u1 st).1).1).session_number =
      st.session_number := by
  cases u1 <;> by_cases hw : st.phase = TimePhase.Work <;>
    simp [switch_phase, update_stats, update_session_number, hw] <;>
      first
        | exact h.symm
        | exact h.symm.trans hw

/-- Witness for C7 at the initial state. -/
theorem c7_forward_then_back_roundtrip_witness :
    (initial_state sample_store).phase =
      get_new_phase (initial_state sample_store).store.settings
        (initial_state sample_store).session_number ∧
    (((switch_phase true false
          (switch_phase false false (initial_state sample_store)).1).1).phase =
        (initial_state sample_store).phase ∧
      ((switch_phase true false
          (switch_phase false false (initial_state sample_store)).1).1).session_number =
        (initial_state sample_store).session_number) :=
  ⟨by decide,
    c7_forward_then_back_roundtrip (initial_state sample_store) false false
      (by decide)⟩

/-- C8: from counter 0 in `Work` with the default interval 4, eight automatic
forward transitions give the phases ShortBreak, Work, ShortBreak, Work,
ShortBreak, Work, LongBreak, Work at counters 1 through 8; in particular
counter 7 gives `LongBreak` because `7 mod 7 = 0`. -/
theorem c8_default_interval_sequence :
    (forward_states (initial_state sample_store) 8).map AppState.phase =
      [TimePhase.ShortBreak, TimePhase.Work, TimePhase.ShortBreak,
       TimePhase.Work, TimePhase.ShortBreak, TimePhase.Work,
       TimePhase.LongBreak, TimePhase.Work] ∧
    (forward_states (initial_state sample_store) 8).map AppState.session_number =
      [1, 2, 3, 4, 5, 6, 7, 8] ∧
    get_new_phase Settings.default 7 = TimePhase.LongBreak ∧
    Int.tmod 7 (2 * 4 - 1) = 0 := by decide

/-- C9: for every negative odd session counter the computed phase is `Work`,
not a break, because the Rust remainder gives `n % 2 = -1` there and the
parity test compares against 1. -/
theorem c9_negative_odd_counter_is_work (s : Settings) (n : Int)
    (hneg : n < 0) (hodd : Odd n) :
    Int.tmod n 2 = -1 ∧ get_new_phase s n = TimePhase.Work := by
  have h1 : (0 : Int) ≤ -n := by omega
  have h2 : Int.tmod (-n) 2 = (-n) % 2 := Int.tmod_eq_emod h1 (by norm_num)
  have h3 : (-n) % 2 = 1 := Int.odd_iff.mp hodd.neg
  have h4 : Int.tmod n 2 = -Int.tmod (-n) 2 := by
    have h5 := tmod_neg_left (-n) 2
    rwa [neg_neg] at h5
  have hm : Int.tmod n 2 = -1 := by rw [h4, h2, h3]
  refine ⟨hm, ?_⟩
  unfold get_new_phase
  rw [if_neg (by rw [hm]; norm_num)]

/-- Witness for C9 at `n = -1`. -/
theorem c9_negative_odd_counter_is_work_witness :
    (-1 : Int) < 0 ∧ Odd (-1 : Int) ∧
      (Int.tmod (-1 : Int) 2 = -1 ∧
        get_new_phase Settings.default (-1) = TimePhase.Work) :=
  ⟨by decide, ⟨-1, by decide⟩,
    c9_negative_odd_counter_is_work Settings.default (-1) (by decide)
      ⟨-1, by decide⟩⟩

/-- C10: when `now` agrees with `last_opened` on year, day-of-year and ISO
week, `check_stat_reset` returns false, performs no write and leaves the
whole store unchanged. -/
theorem c10_no_boundary_no_write (store : StoreState) (today : UtcDate)
    (hy : today.year = store.last_opened.year)
    (hd : today.ordinal = store.last_opened.ordinal)
    (hw : today.isoWeek = store.last_opened.isoWeek) :
    check_stat_reset store today = (store, [], false) := by
  unfold check_stat_reset
  rw [if_neg (by push_neg; exact ⟨hy, hd⟩), if_neg (by push_neg; exact ⟨hy, hw⟩)]

/-- Witness for C10: reopening `busy_store` on the very day it was last
opened changes nothing. -/
theorem c10_no_boundary_no_write_witness :
    (⟨2024, 10, 2⟩ : UtcDate).year = busy_store.last_opened.year ∧
    (⟨2024, 10, 2⟩ : UtcDate).ordinal = busy_store.last_opened.ordinal ∧
    (⟨2024, 10, 2⟩ : UtcDate).isoWeek = busy_store.last_opened.isoWeek ∧
    check_stat_reset busy_store ⟨2024, 10, 2⟩ = (busy_store, [], false) :=
  ⟨rfl, rfl, rfl,
    c10_no_boundary_no_write busy_store ⟨2024, 10, 2⟩ rfl rfl rfl⟩

end Pomodorio
